import Mathlib

/-!
# Parking-slot reservation app: shallow embedding

A shallow embedding of the two code units the claims are about:

* `src/src/app/dashboard/dashboard.component.ts` — the client-side query
  pipeline (search, filters, sort, pagination) of `DashboardComponent`;
* `src/src/app/services/mock-api-observable.service.ts` — the in-memory
  store `MockApiObservableService` (create / update / delete reservations).

Modelling conventions, fixed once here:

* ISO date-time strings are modelled by their parsed epoch-millisecond
  values (`Int`), i.e. by `new Date(s).getTime()`.  All stored dates in the
  app are produced from required, valid DTO fields or the mock data, so the
  falsy-empty-string fallback never fires on stored reservations.
* JavaScript numbers used for money/durations are modelled by `Rat`
  (the claims never probe float rounding).
* `ReservationStatus` and `SpaceStatus` are TypeScript string enums
  (their declaration file `parking.models.ts` is not part of the sources);
  per the spec their values are the strings "PENDING", …, "AVAILABLE", ….
  We model the fields as `String`.
* A JavaScript `Map<string, string>` is modelled by an insertion-ordered
  association list with `mapSet` / `mapGet`.
* `Array.prototype.sort(cmp)` with a consistent comparator is, per the
  ECMAScript spec, the unique stable sort by `cmp`; we model it by a stable
  insertion sort `jsSortBy` (an element is placed before the first element
  `b` with `cmp a b ≤ 0`).  The component's comparator never returns 0, so
  on tie-free inputs the result is forced and engine-independent.
* JavaScript string `<` (code-unit lexicographic) is modelled by Lean's
  lexicographic `String` order (they agree on the basic-plane strings the
  app uses).
* Optional DTO fields are `Option`; an absent field is `none`.  The code's
  truthiness tests (`if (search)`, `dto.lotId || existing.lotId`) are
  modelled on that basis (provided fields are non-empty strings).
-/

/-- Lexicographic strict order on character lists (JavaScript string `<`),
written out over `List Char` so it evaluates by kernel reduction. -/
def charsLt : List Char → List Char → Bool
  | _, [] => false
  | [], _ :: _ => true
  | a :: as, b :: bs => decide (a < b) || (!(decide (b < a)) && charsLt as bs)

/-- JavaScript string `<`: lexicographic comparison of the characters. -/
def strLt (a b : String) : Bool :=
  charsLt a.data b.data

/-- JavaScript `toLowerCase()` (ASCII case mapping), written over the
character list so it evaluates by kernel reduction. -/
def strLower (s : String) : String :=
  ⟨s.data.map Char.toLower⟩

/-- JavaScript `String.prototype.includes`: substring containment of
`needle` in the remaining haystack characters. -/
def strIncludesAux (needle : List Char) : List Char → Bool
  | [] => needle.isEmpty
  | c :: t => List.isPrefixOf needle (c :: t) || strIncludesAux needle t

/-- `hay.includes(needle)` on strings. -/
def jsIncludes (hay needle : String) : Bool :=
  strIncludesAux needle.data hay.data

/-- `Map.set k v`: replace the value at `k` if present (keeping insertion
order), otherwise append the new binding. -/
def mapSet : List (String × String) → String → String → List (String × String)
  | [], k, v => [(k, v)]
  | (k0, v0) :: t, k, v =>
    if k0 = k then (k, v) :: t else (k0, v0) :: mapSet t k v

/-- `Map.get k`. -/
def mapGet : List (String × String) → String → Option String
  | [], _ => none
  | (k0, v0) :: t, k => if k0 = k then some v0 else mapGet t k

/-- JavaScript truthiness of a `string | null` value: `null` and the empty
string are falsy. -/
def optTruthy (o : Option String) : Bool :=
  !(o.getD "" == "")

/-- Stable insertion of `a` into `l`: `a` goes immediately before the first
element `b` with `cmp a b ≤ 0`. -/
def insertSorted (cmp : α → α → Int) (a : α) : List α → List α
  | [] => [a]
  | b :: l => if cmp a b ≤ 0 then a :: b :: l else b :: insertSorted cmp a l

/-- Stable sort by a JavaScript-style comparator, modelling
`Array.prototype.sort(cmp)` (see the header comment). -/
def jsSortBy (cmp : α → α → Int) : List α → List α
  | [] => []
  | a :: l => insertSorted cmp a (jsSortBy cmp l)

/-- `Reservation` (model `parking.models.ts`, fields as used by the code). -/
structure Reservation where
  id : String
  userId : String
  lotId : String
  spaceId : String
  checkInDateTime : Int
  checkOutDateTime : Int
  status : String
  specialRequirements : Option String
  totalCost : Rat
  createdAt : Int
  updatedAt : Int
deriving DecidableEq, Repr

/-- `ParkingLot` (fields the embedded code reads). -/
structure ParkingLot where
  id : String
  name : String
  pricePerHour : Rat
deriving DecidableEq, Repr

/-- `ParkingSpace` (fields the embedded code reads/writes). -/
structure ParkingSpace where
  id : String
  lotId : String
  status : String
  updatedAt : Int
deriving DecidableEq, Repr

/-- `User` (fields the embedded code reads). -/
structure User where
  id : String
  firstName : String
  lastName : String
  email : Option String
deriving DecidableEq, Repr

/-- `CreateReservationDto`: all fields required except
`specialRequirements`. -/
structure CreateReservationDto where
  userId : String
  lotId : String
  spaceId : String
  checkInDateTime : Int
  checkOutDateTime : Int
  specialRequirements : Option String
deriving DecidableEq, Repr

/-- `UpdateReservationDto`: all fields optional. -/
structure UpdateReservationDto where
  userId : Option String
  lotId : Option String
  spaceId : Option String
  checkInDateTime : Option Int
  checkOutDateTime : Option Int
  status : Option String
  specialRequirements : Option String
deriving DecidableEq, Repr

/-- `Sort` from `@angular/material/sort`: active column and direction
("asc" | "desc" | ""). `Sort` is a Lean keyword, hence the name. -/
structure TableSort where
  active : String
  direction : String
deriving DecidableEq, Repr

/-- `PageEvent` (the fields `onPageChange` reads). -/
structure PageEvent where
  pageIndex : Nat
  pageSize : Nat
deriving DecidableEq, Repr

namespace DashboardComponent

/-- The component state the query pipeline reads and writes. -/
structure State where
  pageSize : Nat
  pageIndex : Nat
  totalItems : Nat
  lotNameMap : List (String × String)
  userNameMap : List (String × String)
  userEmailMap : List (String × String)
  allFilteredData : List Reservation
  currentSort : TableSort
  originalOrder : List Reservation
  dataSourceData : List Reservation
deriving DecidableEq, Repr

/-- `getLotNameSync`. -/
def getLotNameSync (lotNameMap : List (String × String)) (lotId : String) : String :=
  (mapGet lotNameMap lotId).getD "Unknown Lot"

/-- `getUserNameSync`. -/
def getUserNameSync (userNameMap : List (String × String)) (userId : String) : String :=
  (mapGet userNameMap userId).getD "Unknown User"

/-- The search predicate inside `initializeDataSource` / `reapplyFilters`
(`s` is the already-lowercased search text). -/
def searchMatches (lotNameMap userNameMap : List (String × String))
    (s : String) (r : Reservation) : Bool :=
  let userName := strLower (getUserNameSync userNameMap r.userId)
  let lotName := strLower (getLotNameSync lotNameMap r.lotId)
  jsIncludes (strLower r.id) s || jsIncludes userName s || jsIncludes lotName s

/-- The search + exact-match filter cascade shared by
`initializeDataSource` and `reapplyFilters`. -/
def applyFilters (lotNameMap userNameMap : List (String × String))
    (reservations : List Reservation) (search : String)
    (status lot user : Option String) : List Reservation :=
  let filtered := reservations
  let filtered :=
    if search == "" then filtered
    else filtered.filter (searchMatches lotNameMap userNameMap (strLower search))
  let filtered :=
    if optTruthy status then filtered.filter (fun r => r.status == status.getD "")
    else filtered
  let filtered :=
    if optTruthy lot then filtered.filter (fun r => r.lotId == lot.getD "")
    else filtered
  let filtered :=
    if optTruthy user then filtered.filter (fun r => r.userId == user.getD "")
    else filtered
  filtered

/-- The sort keys handled by the `switch` in `sortData`: lowercased resolved
names for `userName`/`lotName`, parsed timestamps for the date columns, raw
field strings for `id`/`spaceNumber`/`status`. -/
inductive SortKey where
  | str (s : String)
  | num (n : Int)
deriving DecidableEq, Repr

/-- JavaScript `<` on the two key kinds.  The mixed cases never arise (each
column produces keys of a single kind); JavaScript would compare them via
coercion — we model them as incomparable. -/
def SortKey.lt : SortKey → SortKey → Bool
  | .str a, .str b => strLt a b
  | .num a, .num b => decide (a < b)
  | _, _ => false

/-- `compare(a, b, isAsc)`: `(a < b ? -1 : 1) * (isAsc ? 1 : -1)`.
Note it never returns 0. -/
def compare (a b : SortKey) (isAsc : Bool) : Int :=
  (if SortKey.lt a b then -1 else 1) * (if isAsc then 1 else -1)

/-- The comparator closure passed to `Array.sort` inside `sortData`
(the `switch` on `sort.active`; unknown columns compare as 0). -/
def sortDataCmp (lotNameMap userNameMap : List (String × String))
    (sort : TableSort) (a b : Reservation) : Int :=
  let isAsc := sort.direction == "asc"
  match sort.active with
  | "userName" =>
    compare (.str (strLower (getUserNameSync userNameMap a.userId)))
      (.str (strLower (getUserNameSync userNameMap b.userId))) isAsc
  | "lotName" =>
    compare (.str (strLower (getLotNameSync lotNameMap a.lotId)))
      (.str (strLower (getLotNameSync lotNameMap b.lotId))) isAsc
  | "checkInDateTime" =>
    compare (.num a.checkInDateTime) (.num b.checkInDateTime) isAsc
  | "checkOutDateTime" =>
    compare (.num a.checkOutDateTime) (.num b.checkOutDateTime) isAsc
  | "id" => compare (.str a.id) (.str b.id) isAsc
  | "spaceNumber" => compare (.str a.spaceId) (.str b.spaceId) isAsc
  | "status" => compare (.str a.status) (.str b.status) isAsc
  | _ => 0

/-- The per-column sort key, read off the `switch` in `sortData`: for a
known column, `sortDataCmp` compares exactly these keys.  Used to state
key-distinctness hypotheses about a row set. -/
def sortKeyOf (lotNameMap userNameMap : List (String × String))
    (active : String) (r : Reservation) : SortKey :=
  match active with
  | "userName" => .str (strLower (getUserNameSync userNameMap r.userId))
  | "lotName" => .str (strLower (getLotNameSync lotNameMap r.lotId))
  | "checkInDateTime" => .num r.checkInDateTime
  | "checkOutDateTime" => .num r.checkOutDateTime
  | "id" => .str r.id
  | "spaceNumber" => .str r.spaceId
  | "status" => .str r.status
  | _ => .num 0

/-- `sortData(data, sort)`: with no active column or empty direction it
returns a copy of `this.originalOrder` (the full, unfiltered collection);
otherwise it sorts `data` by the column comparator. -/
def sortData (lotNameMap userNameMap : List (String × String))
    (originalOrder : List Reservation) (data : List Reservation)
    (sort : TableSort) : List Reservation :=
  if sort.active == "" || sort.direction == "" then originalOrder
  else jsSortBy (sortDataCmp lotNameMap userNameMap sort) data

/-- `applySortToFullDataset`: an unset/cleared `currentSort` falls back to
the default sort (check-in date descending), not to the original order. -/
def applySortToFullDataset (st : State) : State :=
  if st.currentSort.active == "" || st.currentSort.direction == "" then
    { st with allFilteredData :=
        (sortData st.lotNameMap st.userNameMap st.originalOrder
          st.allFilteredData ⟨"checkInDateTime", "desc"⟩) }
  else
    { st with allFilteredData :=
        (sortData st.lotNameMap st.userNameMap st.originalOrder
          st.allFilteredData st.currentSort) }

/-- `applyPagination`: `allFilteredData.slice(pageIndex*pageSize,
pageIndex*pageSize + pageSize)` into `dataSource.data`. -/
def applyPagination (st : State) : State :=
  { st with dataSourceData :=
      (st.allFilteredData.drop (st.pageIndex * st.pageSize)).take st.pageSize }

/-- The cache update `lots.map(lot => lotNameMap.set(lot.id, lot.name))`. -/
def lotMapAfter (m : List (String × String)) (lots : List ParkingLot) :
    List (String × String) :=
  lots.foldl (fun m lot => mapSet m lot.id lot.name) m

/-- The cache update `users.map(... userNameMap.set(user.id,
firstName + " " + lastName))`. -/
def userMapAfter (m : List (String × String)) (users : List User) :
    List (String × String) :=
  users.foldl (fun m user => mapSet m user.id (user.firstName ++ " " ++ user.lastName)) m

/-- The cache update for `userEmailMap`. -/
def emailMapAfter (m : List (String × String)) (users : List User) :
    List (String × String) :=
  users.foldl (fun m user => mapSet m user.id (user.email.getD "")) m

/-- One emission of the `combineLatest` in `initializeDataSource`
(the `map` body followed by the `tap` body): update the caches, record the
original order, filter, store `allFilteredData`/`totalItems`, apply the
current sort to the full dataset, reset to the first page, paginate. -/
def recompute (st : State) (reservations : List Reservation) (search : String)
    (status lot user : Option String) (lots : List ParkingLot)
    (users : List User) : State :=
  let lotNameMap := lotMapAfter st.lotNameMap lots
  let userNameMap := userMapAfter st.userNameMap users
  let userEmailMap := emailMapAfter st.userEmailMap users
  let filtered := applyFilters lotNameMap userNameMap reservations search status lot user
  let st := { st with
    lotNameMap := lotNameMap
    userNameMap := userNameMap
    userEmailMap := userEmailMap
    originalOrder := reservations
    allFilteredData := filtered
    totalItems := filtered.length }
  let st := applySortToFullDataset st
  let st := { st with pageIndex := 0 }
  applyPagination st

/-- `reapplyFilters`: refilter `originalOrder` with the current filter
values, updating `allFilteredData` and `totalItems`. -/
def reapplyFilters (st : State) (search : String)
    (status lot user : Option String) : State :=
  let filtered :=
    applyFilters st.lotNameMap st.userNameMap st.originalOrder search status lot user
  { st with allFilteredData := filtered, totalItems := filtered.length }

/-- `handleSortChange(sort)`.  `search`/`status`/`lot`/`user` are the
current filter control values it reads back.  Note: on a cleared sort it
first reapplies the filters, then overwrites `allFilteredData` with
`sortData(-, {active: "", direction: ""})`, which returns the full
unfiltered `originalOrder`.  It always resets `pageIndex` to 0. -/
def handleSortChange (st : State) (search : String)
    (status lot user : Option String) (sort : TableSort) : State :=
  let st := { st with currentSort := sort }
  let st :=
    if sort.active == "" || sort.direction == "" then
      let st := reapplyFilters st search status lot user
      { st with allFilteredData :=
          (sortData st.lotNameMap st.userNameMap st.originalOrder
            st.allFilteredData ⟨"", ""⟩) }
    else
      { st with allFilteredData :=
          (sortData st.lotNameMap st.userNameMap st.originalOrder
            st.allFilteredData sort) }
  let st := { st with pageIndex := 0 }
  applyPagination st

/-- `onPageChange(event)`: adopt the event's page size and index, then
repaginate (no reset to 0). -/
def onPageChange (st : State) (e : PageEvent) : State :=
  applyPagination { st with pageSize := e.pageSize, pageIndex := e.pageIndex }

end DashboardComponent

namespace MockApiObservableService

/-- The service's four in-memory collections. -/
structure StoreState where
  parkingLots : List ParkingLot
  parkingSpaces : List ParkingSpace
  users : List User
  reservations : List Reservation
deriving DecidableEq, Repr

/-- `updateSpaceStatus(spaceId, status)`: set the status (and `updatedAt`)
of every space whose id matches. -/
def updateSpaceStatus (s : StoreState) (spaceId status : String) (now : Int) :
    StoreState :=
  { s with parkingSpaces := s.parkingSpaces.map (fun sp =>
      if sp.id == spaceId then { sp with status := status, updatedAt := now } else sp) }

/-- `createReservation(dto)`.  `now` models `new Date().toISOString()` and
`newId` the random `generateUUID()` result.  Returns the observable's
outcome together with the post-call store. -/
def createReservation (s : StoreState) (dto : CreateReservationDto)
    (now : Int) (newId : String) : Except String Reservation × StoreState :=
  let hours : Rat :=
    ((dto.checkOutDateTime : Rat) - (dto.checkInDateTime : Rat)) / (1000 * 60 * 60)
  match s.parkingLots.find? (fun l => l.id == dto.lotId) with
  | none => (.error ("Parking lot with id " ++ dto.lotId ++ " not found"), s)
  | some lot =>
    let newReservation : Reservation :=
      { id := newId
        userId := dto.userId
        lotId := dto.lotId
        spaceId := dto.spaceId
        checkInDateTime := dto.checkInDateTime
        checkOutDateTime := dto.checkOutDateTime
        status := "PENDING"
        specialRequirements := dto.specialRequirements
        totalCost := max 0 (hours * lot.pricePerHour)
        createdAt := now
        updatedAt := now }
    let s := { s with reservations := s.reservations ++ [newReservation] }
    let s := updateSpaceStatus s dto.spaceId "RESERVED" now
    (.ok newReservation, s)

/-- The splice `[...slice(0, index), updated, ...slice(index + 1)]` at
`index = findIndex(r => r.id === id)`: replace the first matching element,
leaving every other position untouched. -/
def replaceFirstById (rs : List Reservation) (id : String)
    (updated : Reservation) : List Reservation :=
  match rs with
  | [] => []
  | r :: t => if r.id == id then updated :: t else r :: replaceFirstById t id updated

/-- `updateReservation(id, dto)`: shallow merge `{...existing, ...dto,
totalCost, updatedAt: now}`; `totalCost` is recomputed when the dto carries
either date (and the effective lot resolves), and the space statuses are
swapped when the dto carries a different `spaceId`. -/
def updateReservation (s : StoreState) (id : String)
    (dto : UpdateReservationDto) (now : Int) :
    Except String Reservation × StoreState :=
  match s.reservations.find? (fun r => r.id == id) with
  | none => (.error ("Reservation with id " ++ id ++ " not found"), s)
  | some existing =>
    let totalCost : Rat :=
      if dto.checkInDateTime.isSome || dto.checkOutDateTime.isSome then
        let checkIn := dto.checkInDateTime.getD existing.checkInDateTime
        let checkOut := dto.checkOutDateTime.getD existing.checkOutDateTime
        let hours : Rat := ((checkOut : Rat) - (checkIn : Rat)) / (1000 * 60 * 60)
        match s.parkingLots.find? (fun l => l.id == dto.lotId.getD existing.lotId) with
        | some lot => max 0 (hours * lot.pricePerHour)
        | none => existing.totalCost
      else existing.totalCost
    let updated : Reservation :=
      { id := existing.id
        userId := dto.userId.getD existing.userId
        lotId := dto.lotId.getD existing.lotId
        spaceId := dto.spaceId.getD existing.spaceId
        checkInDateTime := dto.checkInDateTime.getD existing.checkInDateTime
        checkOutDateTime := dto.checkOutDateTime.getD existing.checkOutDateTime
        status := dto.status.getD existing.status
        specialRequirements :=
          match dto.specialRequirements with
          | some v => some v
          | none => existing.specialRequirements
        totalCost := totalCost
        createdAt := existing.createdAt
        updatedAt := now }
    let s1 := { s with reservations := replaceFirstById s.reservations id updated }
    let s1 :=
      if dto.spaceId.isSome && !(dto.spaceId.getD "" == existing.spaceId) then
        updateSpaceStatus (updateSpaceStatus s1 existing.spaceId "AVAILABLE" now)
          (dto.spaceId.getD "") "RESERVED" now
      else s1
    (.ok updated, s1)

/-- `deleteReservation(id)`: remove every reservation with that id (they
are unique in practice) and release the space the found reservation
referenced. -/
def deleteReservation (s : StoreState) (id : String) (now : Int) :
    Except String Unit × StoreState :=
  match s.reservations.find? (fun r => r.id == id) with
  | none => (.error ("Reservation with id " ++ id ++ " not found"), s)
  | some reservation =>
    let s := { s with reservations := s.reservations.filter (fun r => !(r.id == id)) }
    let s := updateSpaceStatus s reservation.spaceId "AVAILABLE" now
    (.ok (), s)

end MockApiObservableService

/-! ## Concrete fixtures

Small concrete stores/states/rows used by the closed example theorems. -/

open DashboardComponent MockApiObservableService

/-- A reservation literal with the fields the pipeline examples vary. -/
def mkExampleRes (id : String) (checkIn checkOut : Int) (status : String) :
    Reservation :=
  { id := id, userId := "u1", lotId := "l1", spaceId := "s1"
    checkInDateTime := checkIn, checkOutDateTime := checkOut
    status := status, specialRequirements := none, totalCost := 0
    createdAt := 0, updatedAt := 0 }

/-- Example row A: earlier check-in, status ACTIVE. -/
def exResA : Reservation := mkExampleRes "A" 1000 2000 "ACTIVE"

/-- Example row B: later check-in, status COMPLETED. -/
def exResB : Reservation := mkExampleRes "B" 2000 3000 "COMPLETED"

/-- Example row with lower-case id "a". -/
def exResLow : Reservation := mkExampleRes "a" 0 0 "ACTIVE"

/-- Example row with upper-case id "A" (same id up to case). -/
def exResUp : Reservation := mkExampleRes "A" 0 0 "ACTIVE"

/-- A fresh component state with an unset sort. -/
def pipeState0 : DashboardComponent.State :=
  { pageSize := 10, pageIndex := 0, totalItems := 0
    lotNameMap := [], userNameMap := [], userEmailMap := []
    allFilteredData := [], currentSort := ⟨"", ""⟩
    originalOrder := [], dataSourceData := [] }

/-- A fresh component state with the component's initial `currentSort`
(`{active: "checkInDateTime", direction: "desc"}`). -/
def pipeStateInit : DashboardComponent.State :=
  { pipeState0 with currentSort := ⟨"checkInDateTime", "desc"⟩ }

/-- State after a recompute over `[exResA, exResB]` with an ACTIVE status
filter (only `exResA` survives). -/
def c7State1 : DashboardComponent.State :=
  recompute pipeStateInit [exResA, exResB] "" (some "ACTIVE") none none [] []

/-- `c7State1` after clearing the sort through the sort-change handler
(filters still ACTIVE-only). -/
def c7State2 : DashboardComponent.State :=
  handleSortChange c7State1 "" (some "ACTIVE") none none ⟨"", ""⟩

/-- Example lot: id "l1", 10 per hour. -/
def exLot : ParkingLot := { id := "l1", name := "Lot One", pricePerHour := 10 }

/-- Example space: id "s1", available. -/
def exSpace : ParkingSpace := { id := "s1", lotId := "l1", status := "AVAILABLE", updatedAt := 0 }

/-- Example store: one lot, one space, no reservations. -/
def exStore : StoreState :=
  { parkingLots := [exLot], parkingSpaces := [exSpace], users := [], reservations := [] }

/-- Create dto for a 2-hour interval. -/
def exCreateDto : CreateReservationDto :=
  { userId := "u1", lotId := "l1", spaceId := "s1"
    checkInDateTime := 0, checkOutDateTime := 7200000, specialRequirements := none }

/-- Create dto whose check-out is one hour before check-in. -/
def exCreateDtoNeg : CreateReservationDto :=
  { exCreateDto with checkInDateTime := 7200000, checkOutDateTime := 3600000 }

/-- A stored reservation with an arbitrary `totalCost` of 999 and a one-hour
interval. -/
def exStoredRes : Reservation :=
  { id := "r0", userId := "u1", lotId := "l1", spaceId := "s1"
    checkInDateTime := 3600000, checkOutDateTime := 7200000
    status := "CONFIRMED", specialRequirements := none, totalCost := 999
    createdAt := 0, updatedAt := 0 }

/-- `exStore` with `exStoredRes` in the collection. -/
def exStoreWithRes : StoreState := { exStore with reservations := [exStoredRes] }

/-- Update dto that re-sends the stored check-in date unchanged and nothing
else. -/
def exUpdateDtoSameDate : UpdateReservationDto :=
  { userId := none, lotId := none, spaceId := none
    checkInDateTime := some 3600000, checkOutDateTime := none
    status := none, specialRequirements := none }

/-- Update dto carrying no fields at all. -/
def exUpdateDtoEmpty : UpdateReservationDto :=
  { userId := none, lotId := none, spaceId := none
    checkInDateTime := none, checkOutDateTime := none
    status := none, specialRequirements := none }

/-! ## Order lemmas for the comparator's string order -/

theorem charsLt_trans (as : List Char) :
    ∀ bs cs, charsLt as bs = true → charsLt bs cs = true → charsLt as cs = true := by
  induction as with
  | nil =>
    intro bs cs h1 h2
    cases cs with
    | nil =>
      cases bs with
      | nil => simp [charsLt] at h1
      | cons b bs2 => simp [charsLt] at h2
    | cons c cs2 => simp [charsLt]
  | cons a as2 ih =>
    intro bs cs h1 h2
    cases bs with
    | nil => simp [charsLt] at h1
    | cons b bs2 =>
      cases cs with
      | nil => simp [charsLt] at h2
      | cons c cs2 =>
        simp only [charsLt, Bool.or_eq_true, Bool.and_eq_true, Bool.not_eq_true',
          decide_eq_true_iff, decide_eq_false_iff_not] at h1 h2 ⊢
        rcases h1 with h1 | ⟨h1a, h1b⟩
        · rcases h2 with h2 | ⟨h2a, h2b⟩
          · exact Or.inl (lt_trans h1 h2)
          · exact Or.inl (lt_of_lt_of_le h1 (not_lt.mp h2a))
        · rcases h2 with h2 | ⟨h2a, h2b⟩
          · exact Or.inl (lt_of_le_of_lt (not_lt.mp h1a) h2)
          · exact Or.inr ⟨not_lt.mpr (le_trans (not_lt.mp h1a) (not_lt.mp h2a)),
              ih bs2 cs2 h1b h2b⟩

theorem charsLt_asymm (as : List Char) :
    ∀ bs, charsLt as bs = true → charsLt bs as = true → False := by
  induction as with
  | nil =>
    intro bs h1 h2
    cases bs with
    | nil => simp [charsLt] at h1
    | cons b bs2 => simp [charsLt] at h2
  | cons a as2 ih =>
    intro bs h1 h2
    cases bs with
    | nil => simp [charsLt] at h1
    | cons b bs2 =>
      simp only [charsLt, Bool.or_eq_true, Bool.and_eq_true, Bool.not_eq_true',
        decide_eq_true_iff, decide_eq_false_iff_not] at h1 h2
      rcases h1 with h1 | ⟨h1a, h1b⟩ <;> rcases h2 with h2 | ⟨h2a, h2b⟩
      · exact absurd h2 (lt_asymm h1)
      · exact h2a h1
      · exact h1a h2
      · exact ih bs2 h1b h2b

theorem charsLt_total (as : List Char) :
    ∀ bs, as ≠ bs → charsLt as bs = true ∨ charsLt bs as = true := by
  induction as with
  | nil =>
    intro bs hne
    cases bs with
    | nil => exact absurd rfl hne
    | cons b bs2 => exact Or.inl (by simp [charsLt])
  | cons a as2 ih =>
    intro bs hne
    cases bs with
    | nil => exact Or.inr (by simp [charsLt])
    | cons b bs2 =>
      rcases lt_trichotomy a b with h | h | h
      · exact Or.inl (by simp [charsLt, h])
      · subst h
        have hne2 : as2 ≠ bs2 := by
          intro hh
          exact hne (by rw [hh])
        rcases ih bs2 hne2 with hh | hh
        · exact Or.inl (by simp [charsLt, lt_irrefl, hh])
        · exact Or.inr (by simp [charsLt, lt_irrefl, hh])
      · exact Or.inr (by simp [charsLt, h])

theorem strLt_trans (a b c : String) :
    strLt a b = true → strLt b c = true → strLt a c = true :=
  charsLt_trans a.data b.data c.data

theorem strLt_asymm (a b : String) :
    strLt a b = true → strLt b a = true → False :=
  charsLt_asymm a.data b.data

theorem strLt_total (a b : String) :
    a ≠ b → strLt a b = true ∨ strLt b a = true := by
  intro hne
  exact charsLt_total a.data b.data (fun h => hne (String.ext h))

/-! ## Lemmas about the sort model `jsSortBy` -/

theorem mem_insertSorted (cmp : α → α → Int) (a x : α) :
    ∀ l, x ∈ insertSorted cmp a l ↔ x = a ∨ x ∈ l := by
  intro l
  induction l with
  | nil => simp [insertSorted]
  | cons b t ih =>
    by_cases h : cmp a b ≤ 0
    · simp [insertSorted, h, List.mem_cons]
    · simp only [insertSorted, if_neg h, List.mem_cons, ih]
      tauto

theorem perm_insertSorted (cmp : α → α → Int) (a : α) :
    ∀ l, (insertSorted cmp a l).Perm (a :: l) := by
  intro l
  induction l with
  | nil => simp [insertSorted]
  | cons b t ih =>
    by_cases h : cmp a b ≤ 0
    · simp [insertSorted, h]
    · simp only [insertSorted, if_neg h]
      exact (ih.cons b).trans (List.Perm.swap a b t)

theorem perm_jsSortBy (cmp : α → α → Int) :
    ∀ l, (jsSortBy cmp l).Perm l := by
  intro l
  induction l with
  | nil => simp [jsSortBy]
  | cons a t ih =>
    exact (perm_insertSorted cmp a (jsSortBy cmp t)).trans (ih.cons a)

theorem length_jsSortBy (cmp : α → α → Int) (l : List α) :
    (jsSortBy cmp l).length = l.length :=
  (perm_jsSortBy cmp l).length_eq

theorem pairwise_insertSorted (R : α → α → Prop) (cmp : α → α → Int) (a : α)
    (htrans : ∀ x y z, R x y → R y z → R x z) :
    ∀ l, l.Pairwise R →
      (∀ b ∈ l, (cmp a b ≤ 0 → R a b) ∧ (0 < cmp a b → R b a)) →
      (insertSorted cmp a l).Pairwise R := by
  intro l
  induction l with
  | nil =>
    intro _ _
    simp [insertSorted]
  | cons b t ih =>
    intro hl ha
    rw [List.pairwise_cons] at hl
    by_cases h : cmp a b ≤ 0
    · have hab : R a b := (ha b (by simp)).1 h
      simp only [insertSorted, if_pos h]
      refine List.pairwise_cons.mpr ⟨?_, List.pairwise_cons.mpr ⟨hl.1, hl.2⟩⟩
      intro x hx
      rcases List.mem_cons.mp hx with rfl | hx
      · exact hab
      · exact htrans a b x hab (hl.1 x hx)
    · have hba : R b a := (ha b (by simp)).2 (by omega)
      simp only [insertSorted, if_neg h]
      refine List.pairwise_cons.mpr
        ⟨?_, ih hl.2 (fun c hc => ha c (List.mem_cons_of_mem b hc))⟩
      intro x hx
      rcases (mem_insertSorted cmp a x t).mp hx with rfl | hx
      · exact hba
      · exact hl.1 x hx

theorem pairwise_jsSortBy (R : α → α → Prop) (cmp : α → α → Int)
    (htrans : ∀ x y z, R x y → R y z → R x z) :
    ∀ l, (∀ a ∈ l, ∀ b ∈ l, (cmp a b ≤ 0 → R a b) ∧ (0 < cmp a b → R b a)) →
      (jsSortBy cmp l).Pairwise R := by
  intro l
  induction l with
  | nil =>
    intro _
    simp [jsSortBy]
  | cons a t ih =>
    intro hR
    have hsub : ∀ x ∈ jsSortBy cmp t, x ∈ t :=
      fun x hx => (perm_jsSortBy cmp t).mem_iff.mp hx
    refine pairwise_insertSorted R cmp a htrans (jsSortBy cmp t)
      (ih (fun x hx => fun y hy =>
        hR x (List.mem_cons_of_mem a hx) y (List.mem_cons_of_mem a hy))) ?_
    intro b hb
    exact hR a (by simp) b (List.mem_cons_of_mem a (hsub b hb))

theorem eq_of_perm_of_pairwise (r : α → α → Prop)
    (hasym : ∀ x y, r x y → r y x → False) :
    ∀ l1 l2 : List α, l1.Perm l2 → l1.Pairwise r → l2.Pairwise r → l1 = l2 := by
  have hanti : IsAntisymm α r := ⟨fun x y h1 h2 => (hasym x y h1 h2).elim⟩
  exact fun l1 l2 hp h1 h2 => @List.eq_of_perm_of_sorted α r hanti l1 l2 hp h1 h2

/-- Sorting with a descending comparator after an ascending one (for the
same tie-free key) reverses the list: the generic engine behind the sort
round-trip claim. -/
theorem jsSortBy_asc_desc {κ : Type} (key : α → κ) (ltk : κ → κ → Bool)
    (cmpA cmpD : α → α → Int)
    (hA : ∀ a b, cmpA a b ≤ 0 ↔ ltk (key a) (key b) = true)
    (hD : ∀ a b, cmpD a b ≤ 0 ↔ ltk (key a) (key b) = false)
    (ktrans : ∀ x y z, ltk x y = true → ltk y z = true → ltk x z = true)
    (kasym : ∀ x y, ltk x y = true → ltk y x = true → False)
    (ktotal : ∀ x y, x ≠ y → ltk x y = true ∨ ltk y x = true)
    (l : List α) (hnd : l.Pairwise (fun a b => key a ≠ key b)) :
    jsSortBy cmpD (jsSortBy cmpA l) = (jsSortBy cmpA l).reverse := by
  have hRtransA : ∀ x y z : α,
      (ltk (key x) (key y) = true ∨ key x = key y) →
      (ltk (key y) (key z) = true ∨ key y = key z) →
      (ltk (key x) (key z) = true ∨ key x = key z) := by
    intro x y z hxy hyz
    rcases hxy with h1 | h1
    · rcases hyz with h2 | h2
      · exact Or.inl (ktrans _ _ _ h1 h2)
      · exact Or.inl (h2 ▸ h1)
    · rcases hyz with h2 | h2
      · exact Or.inl (h1 ▸ h2)
      · exact Or.inr (h1.trans h2)
  have hpermA : (jsSortBy cmpA l).Perm l := perm_jsSortBy cmpA l
  have hndA : (jsSortBy cmpA l).Pairwise (fun a b => key a ≠ key b) :=
    (hpermA.pairwise_iff (fun h => h.symm)).mpr hnd
  have hSA : (jsSortBy cmpA l).Pairwise
      (fun a b => ltk (key a) (key b) = true ∨ key a = key b) := by
    refine pairwise_jsSortBy _ cmpA hRtransA l ?_
    intro a _ b _
    constructor
    · intro h
      exact Or.inl ((hA a b).mp h)
    · intro h
      have hfalse : ltk (key a) (key b) = false := by
        rcases hb : ltk (key a) (key b) with _ | _
        · rfl
        · exact absurd ((hA a b).mpr hb) (by omega)
      by_cases heq : key a = key b
      · exact Or.inr heq.symm
      · rcases ktotal _ _ heq with ht | ht
        · rw [ht] at hfalse
          exact absurd hfalse (by simp)
        · exact Or.inl ht
  have hSA2 : (jsSortBy cmpA l).Pairwise
      (fun a b => ltk (key a) (key b) = true) :=
    (hSA.and hndA).imp (fun h => h.1.resolve_right h.2)
  have hRtransD : ∀ x y z : α,
      (ltk (key y) (key x) = true ∨ key x = key y) →
      (ltk (key z) (key y) = true ∨ key y = key z) →
      (ltk (key z) (key x) = true ∨ key x = key z) := by
    intro x y z hxy hyz
    rcases hxy with h1 | h1
    · rcases hyz with h2 | h2
      · exact Or.inl (ktrans _ _ _ h2 h1)
      · exact Or.inl (h2 ▸ h1)
    · rcases hyz with h2 | h2
      · exact Or.inl (h1 ▸ h2)
      · exact Or.inr (h1.trans h2)
  have hSD : (jsSortBy cmpD (jsSortBy cmpA l)).Pairwise
      (fun a b => ltk (key b) (key a) = true ∨ key a = key b) := by
    refine pairwise_jsSortBy _ cmpD hRtransD (jsSortBy cmpA l) ?_
    intro a _ b _
    constructor
    · intro h
      have hfalse : ltk (key a) (key b) = false := (hD a b).mp h
      by_cases heq : key a = key b
      · exact Or.inr heq
      · rcases ktotal _ _ heq with ht | ht
        · rw [ht] at hfalse
          exact absurd hfalse (by simp)
        · exact Or.inl ht
    · intro h
      have htrue : ltk (key a) (key b) = true := by
        rcases hb : ltk (key a) (key b) with _ | _
        · exact absurd ((hD a b).mpr hb) (by omega)
        · rfl
      exact Or.inl htrue
  have hpermD : (jsSortBy cmpD (jsSortBy cmpA l)).Perm (jsSortBy cmpA l) :=
    perm_jsSortBy cmpD (jsSortBy cmpA l)
  have hndD : (jsSortBy cmpD (jsSortBy cmpA l)).Pairwise
      (fun a b => key a ≠ key b) :=
    (hpermD.pairwise_iff (fun h => h.symm)).mpr hndA
  have hSD2 : (jsSortBy cmpD (jsSortBy cmpA l)).Pairwise
      (fun a b => ltk (key b) (key a) = true) :=
    (hSD.and hndD).imp (fun h => h.1.resolve_right h.2)
  have hrev : ((jsSortBy cmpA l).reverse).Pairwise
      (fun a b => ltk (key b) (key a) = true) :=
    List.pairwise_reverse.mpr hSA2
  have hperm2 : (jsSortBy cmpD (jsSortBy cmpA l)).Perm ((jsSortBy cmpA l).reverse) :=
    hpermD.trans (List.reverse_perm (jsSortBy cmpA l)).symm
  exact eq_of_perm_of_pairwise _ (fun x y h1 h2 => kasym _ _ h1 h2) _ _
    hperm2 hSD2 hrev

/-! ## Lemmas about the store's list surgery -/

open MockApiObservableService in
theorem replaceFirstById_length (id : String) (u : Reservation) :
    ∀ rs, (replaceFirstById rs id u).length = rs.length := by
  intro rs
  induction rs with
  | nil => simp [replaceFirstById]
  | cons r t ih =>
    by_cases h : r.id == id
    · simp [replaceFirstById, h]
    · simp [replaceFirstById, h, ih]

open MockApiObservableService in
theorem replaceFirstById_getElem_of_ne (id : String) (u : Reservation) :
    ∀ (rs : List Reservation) (j : Nat) (r2 : Reservation),
      rs[j]? = some r2 → r2.id ≠ id → (replaceFirstById rs id u)[j]? = some r2 := by
  intro rs
  induction rs with
  | nil =>
    intro j r2 hj
    simp at hj
  | cons r t ih =>
    intro j r2 hj hne
    by_cases h : r.id == id
    · cases j with
      | zero =>
        simp at hj
        exact absurd (by rw [← hj]; exact (beq_iff_eq.mp h)) hne
      | succ j2 =>
        simp only [replaceFirstById, if_pos h]
        simpa using hj
    · cases j with
      | zero =>
        simp only [replaceFirstById, if_neg h]
        simpa using hj
      | succ j2 =>
        simp only [replaceFirstById, if_neg h]
        simp only [List.getElem?_cons_succ] at hj ⊢
        exact ih j2 r2 hj hne

/-! ## Comparator characterization helpers -/

theorem compare_spec (x y : SortKey) :
    (DashboardComponent.compare x y true ≤ 0 ↔ SortKey.lt x y = true) ∧
    (DashboardComponent.compare x y false ≤ 0 ↔ SortKey.lt x y = false) ∧
    DashboardComponent.compare x y false = -(DashboardComponent.compare x y true) ∧
    DashboardComponent.compare x y true ≠ 0 ∧
    DashboardComponent.compare x y false ≠ 0 := by
  cases h : SortKey.lt x y <;>
    simp [DashboardComponent.compare, h]

theorem intLtB_trans (x y z : Int) :
    decide (x < y) = true → decide (y < z) = true → decide (x < z) = true := by
  simp only [decide_eq_true_iff]
  omega

theorem intLtB_asymm (x y : Int) :
    decide (x < y) = true → decide (y < x) = true → False := by
  simp only [decide_eq_true_iff]
  omega

theorem intLtB_total (x y : Int) :
    x ≠ y → decide (x < y) = true ∨ decide (y < x) = true := by
  simp only [decide_eq_true_iff]
  omega

theorem sortData_active (m1 m2 : List (String × String))
    (orig data : List Reservation) (sort : TableSort)
    (h : (sort.active == "" || sort.direction == "") = false) :
    sortData m1 m2 orig data sort = jsSortBy (sortDataCmp m1 m2 sort) data := by
  simp [sortData, h]

theorem sortData_roundtrip_str (m1 m2 : List (String × String))
    (orig : List Reservation) (keyf : Reservation → String) (c : String)
    (hA : ∀ a b : Reservation, sortDataCmp m1 m2 ⟨c, "asc"⟩ a b =
      DashboardComponent.compare (.str (keyf a)) (.str (keyf b)) true)
    (hD : ∀ a b : Reservation, sortDataCmp m1 m2 ⟨c, "desc"⟩ a b =
      DashboardComponent.compare (.str (keyf a)) (.str (keyf b)) false)
    (hc : (c == "") = false)
    (l : List Reservation) (hnd : l.Pairwise (fun a b => keyf a ≠ keyf b)) :
    sortData m1 m2 orig (sortData m1 m2 orig l ⟨c, "asc"⟩) ⟨c, "desc"⟩
      = (sortData m1 m2 orig l ⟨c, "asc"⟩).reverse := by
  rw [sortData_active m1 m2 orig l ⟨c, "asc"⟩ (by rw [hc]; rfl),
     sortData_active m1 m2 orig _ ⟨c, "desc"⟩ (by rw [hc]; rfl)]
  exact jsSortBy_asc_desc keyf strLt (sortDataCmp m1 m2 ⟨c, "asc"⟩)
    (sortDataCmp m1 m2 ⟨c, "desc"⟩)
    (fun a b => by rw [hA]; exact (compare_spec _ _).1)
    (fun a b => by rw [hD]; exact (compare_spec _ _).2.1)
    strLt_trans strLt_asymm strLt_total l hnd

theorem sortData_roundtrip_num (m1 m2 : List (String × String))
    (orig : List Reservation) (keyf : Reservation → Int) (c : String)
    (hA : ∀ a b : Reservation, sortDataCmp m1 m2 ⟨c, "asc"⟩ a b =
      DashboardComponent.compare (.num (keyf a)) (.num (keyf b)) true)
    (hD : ∀ a b : Reservation, sortDataCmp m1 m2 ⟨c, "desc"⟩ a b =
      DashboardComponent.compare (.num (keyf a)) (.num (keyf b)) false)
    (hc : (c == "") = false)
    (l : List Reservation) (hnd : l.Pairwise (fun a b => keyf a ≠ keyf b)) :
    sortData m1 m2 orig (sortData m1 m2 orig l ⟨c, "asc"⟩) ⟨c, "desc"⟩
      = (sortData m1 m2 orig l ⟨c, "asc"⟩).reverse := by
  rw [sortData_active m1 m2 orig l ⟨c, "asc"⟩ (by rw [hc]; rfl),
     sortData_active m1 m2 orig _ ⟨c, "desc"⟩ (by rw [hc]; rfl)]
  exact jsSortBy_asc_desc keyf (fun x y => decide (x < y))
    (sortDataCmp m1 m2 ⟨c, "asc"⟩) (sortDataCmp m1 m2 ⟨c, "desc"⟩)
    (fun a b => by rw [hA]; exact (compare_spec _ _).1)
    (fun a b => by rw [hD]; exact (compare_spec _ _).2.1)
    intLtB_trans intLtB_asymm intLtB_total l hnd

/-! ## Claim C8 -/

/-- Claim C8 (confirmed): for every filtered row set whose keys on the
active sort column are pairwise distinct, sorting ascending and then
descending on that column yields exactly the reversed sequence of ids. -/
theorem claimC8_sort_roundtrip :
    ∀ (m1 m2 : List (String × String)) (orig l : List Reservation) (c : String),
      c ∈ (["userName", "lotName", "checkInDateTime", "checkOutDateTime",
            "id", "spaceNumber", "status"] : List String) →
      l.Pairwise (fun a b => sortKeyOf m1 m2 c a ≠ sortKeyOf m1 m2 c b) →
      (sortData m1 m2 orig (sortData m1 m2 orig l ⟨c, "asc"⟩) ⟨c, "desc"⟩).map
          (fun r => r.id)
        = ((sortData m1 m2 orig l ⟨c, "asc"⟩).map (fun r => r.id)).reverse := by
  intro m1 m2 orig l c hc hnd
  have hrev : sortData m1 m2 orig (sortData m1 m2 orig l ⟨c, "asc"⟩) ⟨c, "desc"⟩
      = (sortData m1 m2 orig l ⟨c, "asc"⟩).reverse := by
    fin_cases hc
    · exact sortData_roundtrip_str m1 m2 orig
        (fun r => strLower (getUserNameSync m2 r.userId)) "userName"
        (fun a b => rfl) (fun a b => rfl) rfl l
        (hnd.imp (fun h heq => h (congrArg SortKey.str heq)))
    · exact sortData_roundtrip_str m1 m2 orig
        (fun r => strLower (getLotNameSync m1 r.lotId)) "lotName"
        (fun a b => rfl) (fun a b => rfl) rfl l
        (hnd.imp (fun h heq => h (congrArg SortKey.str heq)))
    · exact sortData_roundtrip_num m1 m2 orig
        (fun r => r.checkInDateTime) "checkInDateTime"
        (fun a b => rfl) (fun a b => rfl) rfl l
        (hnd.imp (fun h heq => h (congrArg SortKey.num heq)))
    · exact sortData_roundtrip_num m1 m2 orig
        (fun r => r.checkOutDateTime) "checkOutDateTime"
        (fun a b => rfl) (fun a b => rfl) rfl l
        (hnd.imp (fun h heq => h (congrArg SortKey.num heq)))
    · exact sortData_roundtrip_str m1 m2 orig (fun r => r.id) "id"
        (fun a b => rfl) (fun a b => rfl) rfl l
        (hnd.imp (fun h heq => h (congrArg SortKey.str heq)))
    · exact sortData_roundtrip_str m1 m2 orig (fun r => r.spaceId) "spaceNumber"
        (fun a b => rfl) (fun a b => rfl) rfl l
        (hnd.imp (fun h heq => h (congrArg SortKey.str heq)))
    · exact sortData_roundtrip_str m1 m2 orig (fun r => r.status) "status"
        (fun a b => rfl) (fun a b => rfl) rfl l
        (hnd.imp (fun h heq => h (congrArg SortKey.str heq)))
  rw [hrev, List.map_reverse]

/-- Claim C8 witness: the round-trip theorem applied to a concrete
two-row set with distinct ids. -/
theorem claimC8_witness :
    ("id" ∈ (["userName", "lotName", "checkInDateTime", "checkOutDateTime",
        "id", "spaceNumber", "status"] : List String)) ∧
    ([exResLow, exResUp].Pairwise
      (fun a b => sortKeyOf [] [] "id" a ≠ sortKeyOf [] [] "id" b)) ∧
    (sortData [] [] [] (sortData [] [] [] [exResLow, exResUp] ⟨"id", "asc"⟩)
        ⟨"id", "desc"⟩).map (fun r => r.id)
      = ((sortData [] [] [] [exResLow, exResUp] ⟨"id", "asc"⟩).map
          (fun r => r.id)).reverse :=
  ⟨by decide, by decide,
    claimC8_sort_roundtrip [] [] [] [exResLow, exResUp] "id" (by decide) (by decide)⟩

/-! ## Claim C1 -/

/-- Claim C1 counterexample: with `currentSort` unset and no filters, the
recompute path over `[exResA, exResB]` produces `[exResB, exResA]` (default
check-in-descending order), not the original collection order
`[exResA, exResB]` the claim requires. -/
theorem claimC1_counterexample :
    (recompute pipeState0 [exResA, exResB] "" none none none [] []).allFilteredData
        = [exResB, exResA] ∧
    ([exResB, exResA] : List Reservation) ≠ [exResA, exResB] := by
  decide

/-- Claim C1 (amended): when `sort.active` is unset or the direction is
cleared, (1) the recompute path does not fall back to the original order:
it applies the default sort — check-in date descending — to the filtered
rows (the result is a permutation of the filtered rows, pairwise ordered by
non-increasing check-in date); and (2) the sort-clear handler replaces the
pre-pagination rows with the full original (pre-filter) collection order,
including rows the active filters exclude. -/
theorem claimC1_amended :
    (∀ (st : DashboardComponent.State) rs search status lot user lots users,
      st.currentSort.active = "" ∨ st.currentSort.direction = "" →
      (recompute st rs search status lot user lots users).allFilteredData.Perm
        (applyFilters (lotMapAfter st.lotNameMap lots)
          (userMapAfter st.userNameMap users) rs search status lot user) ∧
      (recompute st rs search status lot user lots users).allFilteredData.Pairwise
        (fun a b => b.checkInDateTime ≤ a.checkInDateTime)) ∧
    (∀ (st : DashboardComponent.State) search status lot user (sort : TableSort),
      sort.active = "" ∨ sort.direction = "" →
      (handleSortChange st search status lot user sort).allFilteredData
        = st.originalOrder) := by
  constructor
  · intro st rs search status lot user lots users h
    have hcond : (st.currentSort.active == "" || st.currentSort.direction == "") = true := by
      rcases h with h | h <;> simp [h]
    have hdata : (recompute st rs search status lot user lots users).allFilteredData
        = jsSortBy (sortDataCmp (lotMapAfter st.lotNameMap lots)
            (userMapAfter st.userNameMap users) ⟨"checkInDateTime", "desc"⟩)
          (applyFilters (lotMapAfter st.lotNameMap lots)
            (userMapAfter st.userNameMap users) rs search status lot user) := by
      simp [recompute, applySortToFullDataset, applyPagination, hcond, sortData]
    rw [hdata]
    refine ⟨perm_jsSortBy _ _, ?_⟩
    refine pairwise_jsSortBy
      (fun a b : Reservation => b.checkInDateTime ≤ a.checkInDateTime) _
      (fun x y z h1 h2 => le_trans h2 h1) _ ?_
    intro a _ b _
    constructor
    · intro hle
      by_cases hl : a.checkInDateTime < b.checkInDateTime
      · exfalso
        simp [sortDataCmp, DashboardComponent.compare, SortKey.lt, hl] at hle
      · omega
    · intro hgt
      by_cases hl : a.checkInDateTime < b.checkInDateTime
      · omega
      · exfalso
        simp [sortDataCmp, DashboardComponent.compare, SortKey.lt, hl] at hgt
  · intro st search status lot user sort h
    have hcond : (sort.active == "" || sort.direction == "") = true := by
      rcases h with h | h <;> simp [h]
    simp [handleSortChange, reapplyFilters, applyPagination, hcond, sortData]

/-- Claim C1 witness: the amended theorem applied to a concrete state with
an unset sort. -/
theorem claimC1_witness :
    (pipeState0.currentSort.active = "" ∨ pipeState0.currentSort.direction = "") ∧
    (recompute pipeState0 [exResA, exResB] "" none none none [] []).allFilteredData.Perm
      (applyFilters (lotMapAfter pipeState0.lotNameMap [])
        (userMapAfter pipeState0.userNameMap []) [exResA, exResB] "" none none none) ∧
    (recompute pipeState0 [exResA, exResB] "" none none none [] []).allFilteredData.Pairwise
      (fun a b => b.checkInDateTime ≤ a.checkInDateTime) ∧
    (handleSortChange pipeState0 "" none none none ⟨"", ""⟩).allFilteredData
      = pipeState0.originalOrder := by
  have h1 := claimC1_amended.1 pipeState0 [exResA, exResB] "" none none none [] []
    (Or.inl rfl)
  have h2 := claimC1_amended.2 pipeState0 "" none none none ⟨"", ""⟩ (Or.inl rfl)
  exact ⟨Or.inl rfl, h1.1, h1.2, h2⟩

/-! ## Claim C2 -/

/-- Claim C2 counterexample: a sort change does reset `pageIndex` — from a
state at page 3, `handleSortChange` with an active id sort lands on page 0,
contradicting "a sort change … does not reset pageIndex". -/
theorem claimC2_counterexample :
    (handleSortChange { pipeStateInit with pageIndex := 3 } "" none none none
        ⟨"id", "asc"⟩).pageIndex = 0 ∧
    ({ pipeStateInit with pageIndex := 3 } : DashboardComponent.State).pageIndex = 3 := by
  decide

/-- Claim C2 (amended): `pageIndex` is reset to 0 by every recompute of the
search/filter/data inputs and also by every sort change; a page event does
not force 0 but adopts the event's own `pageIndex`. -/
theorem claimC2_amended :
    (∀ (st : DashboardComponent.State) rs search status lot user lots users,
      (recompute st rs search status lot user lots users).pageIndex = 0) ∧
    (∀ (st : DashboardComponent.State) search status lot user sort,
      (handleSortChange st search status lot user sort).pageIndex = 0) ∧
    (∀ (st : DashboardComponent.State) (e : PageEvent),
      (onPageChange st e).pageIndex = e.pageIndex) := by
  refine ⟨?_, ?_, ?_⟩
  · intro st rs search status lot user lots users
    rfl
  · intro st search status lot user sort
    by_cases h : (sort.active == "" || sort.direction == "") = true
    · simp [handleSortChange, reapplyFilters, applyPagination, h]
    · simp [handleSortChange, reapplyFilters, applyPagination, h]
  · intro st e
    rfl

/-! ## Claim C3 -/

/-- Claim C3 counterexample: two rows whose ids differ only in letter case
("a" vs "A") are not treated as equal-keyed: the ascending id sort reorders
them (upper-case code units compare lower), so the comparison is
case-sensitive, contradicting the claimed case-insensitive compare. -/
theorem claimC3_counterexample :
    sortData [] [] [] [exResLow, exResUp] ⟨"id", "asc"⟩ = [exResUp, exResLow] ∧
    strLower exResLow.id = strLower exResUp.id ∧
    ([exResUp, exResLow] : List Reservation) ≠ [exResLow, exResUp] := by
  decide

/-- Claim C3 (amended): for the `id`, `spaceNumber` and `status` columns the
pipeline compares the raw field values case-sensitively (lexicographically);
"desc" negates the ascending comparator; and the comparator never returns 0,
so no two rows are ever equal-keyed (ties are reported as "greater"). -/
theorem claimC3_amended :
    ∀ (m1 m2 : List (String × String)) (a b : Reservation),
      (sortDataCmp m1 m2 ⟨"id", "asc"⟩ a b ≤ 0 ↔ strLt a.id b.id = true) ∧
      (sortDataCmp m1 m2 ⟨"id", "desc"⟩ a b
        = -(sortDataCmp m1 m2 ⟨"id", "asc"⟩ a b)) ∧
      sortDataCmp m1 m2 ⟨"id", "asc"⟩ a b ≠ 0 ∧
      (sortDataCmp m1 m2 ⟨"spaceNumber", "asc"⟩ a b ≤ 0
        ↔ strLt a.spaceId b.spaceId = true) ∧
      (sortDataCmp m1 m2 ⟨"spaceNumber", "desc"⟩ a b
        = -(sortDataCmp m1 m2 ⟨"spaceNumber", "asc"⟩ a b)) ∧
      sortDataCmp m1 m2 ⟨"spaceNumber", "asc"⟩ a b ≠ 0 ∧
      (sortDataCmp m1 m2 ⟨"status", "asc"⟩ a b ≤ 0
        ↔ strLt a.status b.status = true) ∧
      (sortDataCmp m1 m2 ⟨"status", "desc"⟩ a b
        = -(sortDataCmp m1 m2 ⟨"status", "asc"⟩ a b)) ∧
      sortDataCmp m1 m2 ⟨"status", "asc"⟩ a b ≠ 0 := by
  intro m1 m2 a b
  exact ⟨(compare_spec (.str a.id) (.str b.id)).1,
    (compare_spec (.str a.id) (.str b.id)).2.2.1,
    (compare_spec (.str a.id) (.str b.id)).2.2.2.1,
    (compare_spec (.str a.spaceId) (.str b.spaceId)).1,
    (compare_spec (.str a.spaceId) (.str b.spaceId)).2.2.1,
    (compare_spec (.str a.spaceId) (.str b.spaceId)).2.2.2.1,
    (compare_spec (.str a.status) (.str b.status)).1,
    (compare_spec (.str a.status) (.str b.status)).2.2.1,
    (compare_spec (.str a.status) (.str b.status)).2.2.2.1⟩

/-! ## Claim C7 -/

/-- Claim C7 counterexample: after clearing the sort through
`handleSortChange` while the ACTIVE status filter keeps only one of the two
rows, the rendered page holds 2 rows but `totalItems` is 1 — so
`visibleRows.length ≤ totalCount` fails for this filter/sort combination. -/
theorem claimC7_counterexample :
    c7State2.dataSourceData.length = 2 ∧ c7State2.totalItems = 1 ∧
    ¬ (c7State2.dataSourceData.length ≤ c7State2.totalItems) := by
  decide

/-- Claim C7 (amended): `visibleRows.length ≤ pageSize` holds for every
state; `visibleRows.length ≤ totalCount` holds after every recompute of the
search/filter/data inputs, and page events preserve it as long as
`allFilteredData` is in sync with `totalItems` — but it can fail right
after clearing the sort through the sort-change handler with filters active
(the handler then repopulates the rows with the full unfiltered
collection). -/
theorem claimC7_amended :
    (∀ st : DashboardComponent.State,
      (applyPagination st).dataSourceData.length ≤ st.pageSize) ∧
    (∀ (st : DashboardComponent.State) rs search status lot user lots users,
      (recompute st rs search status lot user lots users).dataSourceData.length
        ≤ (recompute st rs search status lot user lots users).totalItems) ∧
    (∀ (st : DashboardComponent.State) (e : PageEvent),
      st.allFilteredData.length = st.totalItems →
      (onPageChange st e).dataSourceData.length ≤ (onPageChange st e).totalItems) := by
  have hpag : ∀ st : DashboardComponent.State,
      (applyPagination st).dataSourceData.length ≤ st.pageSize := by
    intro st
    simp only [applyPagination, List.length_take]
    omega
  have key : ∀ st2 : DashboardComponent.State,
      st2.allFilteredData.length = st2.totalItems →
      (applyPagination st2).dataSourceData.length
        ≤ (applyPagination st2).totalItems := by
    intro st2 hsync
    simp only [applyPagination, List.length_take, List.length_drop]
    omega
  have hsorted : ∀ st2 : DashboardComponent.State,
      (applySortToFullDataset st2).allFilteredData.length
        = st2.allFilteredData.length := by
    intro st2
    by_cases h : (st2.currentSort.active == "" || st2.currentSort.direction == "") = true
    · simp [applySortToFullDataset, h, sortData, length_jsSortBy]
    · have h2 : (st2.currentSort.active == "" || st2.currentSort.direction == "") = false :=
        by simpa using h
      simp [applySortToFullDataset, h2, sortData, length_jsSortBy]
  have htotal : ∀ st2 : DashboardComponent.State,
      (applySortToFullDataset st2).totalItems = st2.totalItems := by
    intro st2
    by_cases h : (st2.currentSort.active == "" || st2.currentSort.direction == "") = true
    · simp [applySortToFullDataset, h]
    · have h2 : (st2.currentSort.active == "" || st2.currentSort.direction == "") = false :=
        by simpa using h
      simp [applySortToFullDataset, h2]
  refine ⟨hpag, ?_, ?_⟩
  · intro st rs search status lot user lots users
    simp only [recompute]
    refine key _ ?_
    rw [hsorted, htotal]
  · intro st e h
    simp only [onPageChange]
    exact key _ h

/-- Claim C7 witness: the amended theorem applied at concrete inputs —
pagination bound at `c7State1`, recompute bound for the ACTIVE-filter
recompute, and the page-event bound at `c7State1` (whose row cache is in
sync with its total). -/
theorem claimC7_witness :
    ((applyPagination c7State1).dataSourceData.length ≤ c7State1.pageSize) ∧
    ((recompute pipeStateInit [exResA, exResB] "" (some "ACTIVE") none none
        [] []).dataSourceData.length
      ≤ (recompute pipeStateInit [exResA, exResB] "" (some "ACTIVE") none none
        [] []).totalItems) ∧
    (c7State1.allFilteredData.length = c7State1.totalItems) ∧
    ((onPageChange c7State1 ⟨2, 5⟩).dataSourceData.length
      ≤ (onPageChange c7State1 ⟨2, 5⟩).totalItems) := by
  refine ⟨claimC7_amended.1 c7State1,
    claimC7_amended.2.1 pipeStateInit [exResA, exResB] "" (some "ACTIVE") none none [] [],
    by decide,
    claimC7_amended.2.2 c7State1 ⟨2, 5⟩ (by decide)⟩

/-! ## Claim C9 -/

/-- Claim C9 (confirmed): when a reservation's `userId`/`lotId` is absent
from the name caches, the lookups return the fixed fallback labels
"Unknown User" / "Unknown Lot"; the search predicate then tests exactly the
lowercased fallback labels, and the name-column sort keys are the
lowercased fallback labels — all total functions, so search/sort cannot
throw. -/
theorem claimC9_unknown_fallback :
    ∀ (lotNameMap userNameMap : List (String × String)) (r : Reservation)
      (s : String),
      mapGet userNameMap r.userId = none → mapGet lotNameMap r.lotId = none →
      getUserNameSync userNameMap r.userId = "Unknown User" ∧
      getLotNameSync lotNameMap r.lotId = "Unknown Lot" ∧
      searchMatches lotNameMap userNameMap s r
        = (jsIncludes (strLower r.id) s || jsIncludes "unknown user" s
            || jsIncludes "unknown lot" s) ∧
      sortKeyOf lotNameMap userNameMap "userName" r = .str "unknown user" ∧
      sortKeyOf lotNameMap userNameMap "lotName" r = .str "unknown lot" := by
  intro lotNameMap userNameMap r s hu hl
  have h1 : getUserNameSync userNameMap r.userId = "Unknown User" := by
    simp [getUserNameSync, hu]
  have h2 : getLotNameSync lotNameMap r.lotId = "Unknown Lot" := by
    simp [getLotNameSync, hl]
  have hlow1 : strLower "Unknown User" = "unknown user" := by decide
  have hlow2 : strLower "Unknown Lot" = "unknown lot" := by decide
  refine ⟨h1, h2, ?_, ?_, ?_⟩
  · simp [searchMatches, h1, h2, hlow1, hlow2]
  · simp [sortKeyOf, h1, hlow1]
  · simp [sortKeyOf, h2, hlow2]

/-- Claim C9 witness: the fallback theorem applied to a concrete row with
empty caches. -/
theorem claimC9_witness :
    mapGet [] exResA.userId = none ∧ mapGet [] exResA.lotId = none ∧
    getUserNameSync [] exResA.userId = "Unknown User" ∧
    getLotNameSync [] exResA.lotId = "Unknown Lot" ∧
    searchMatches [] [] "unknown" exResA
      = (jsIncludes (strLower exResA.id) "unknown"
          || jsIncludes "unknown user" "unknown"
          || jsIncludes "unknown lot" "unknown") ∧
    sortKeyOf [] [] "userName" exResA = .str "unknown user" ∧
    sortKeyOf [] [] "lotName" exResA = .str "unknown lot" := by
  have h := claimC9_unknown_fallback [] [] exResA "unknown" rfl rfl
  exact ⟨rfl, rfl, h.1, h.2.1, h.2.2.1, h.2.2.2.1, h.2.2.2.2⟩

/-! ## Claim C10 -/

/-- Claim C10 (confirmed): whenever a store command fails (NotFound), the
whole store — in particular the reservation and parking-space collections —
is left exactly as it was: the failure is decided before any mutation. -/
theorem claimC10_notfound_frame :
    ∀ (s : MockApiObservableService.StoreState) (now : Int),
      (∀ dto newId, (createReservation s dto now newId).1.isOk = false →
        (createReservation s dto now newId).2 = s) ∧
      (∀ id dto, (updateReservation s id dto now).1.isOk = false →
        (updateReservation s id dto now).2 = s) ∧
      (∀ id, (deleteReservation s id now).1.isOk = false →
        (deleteReservation s id now).2 = s) := by
  intro s now
  refine ⟨?_, ?_, ?_⟩
  · intro dto newId h
    rcases hfind : s.parkingLots.find? (fun l => l.id == dto.lotId) with _ | lot
    · simp [createReservation, hfind]
    · exfalso
      simp [createReservation, hfind, Except.isOk, Except.toBool] at h
  · intro id dto h
    rcases hfind : s.reservations.find? (fun r => r.id == id) with _ | res
    · simp [updateReservation, hfind]
    · exfalso
      rw [updateReservation] at h
      rw [hfind] at h
      by_cases hsp : (dto.spaceId.isSome && !(dto.spaceId.getD "" == res.spaceId)) = true <;>
        simp [hsp, Except.isOk, Except.toBool] at h
  · intro id h
    rcases hfind : s.reservations.find? (fun r => r.id == id) with _ | res
    · simp [deleteReservation, hfind]
    · exfalso
      simp [deleteReservation, hfind, Except.isOk, Except.toBool] at h

/-- Claim C10 witness: the frame theorem applied to the empty-collection
store, where all three commands fail with NotFound. -/
theorem claimC10_witness :
    ((createReservation { exStore with parkingLots := [] } exCreateDto 0 "n").1.isOk
        = false) ∧
    (createReservation { exStore with parkingLots := [] } exCreateDto 0 "n").2
        = { exStore with parkingLots := [] } ∧
    ((updateReservation exStore "zz" exUpdateDtoEmpty 0).1.isOk = false) ∧
    (updateReservation exStore "zz" exUpdateDtoEmpty 0).2 = exStore ∧
    ((deleteReservation exStore "zz" 0).1.isOk = false) ∧
    (deleteReservation exStore "zz" 0).2 = exStore := by
  have h := claimC10_notfound_frame { exStore with parkingLots := [] } 0
  have h2 := claimC10_notfound_frame exStore 0
  exact ⟨by decide, h.1 exCreateDto "n" (by decide),
    by decide, h2.2.1 "zz" exUpdateDtoEmpty (by decide),
    by decide, h2.2.2 "zz" (by decide)⟩

/-! ## Claim C4 -/

/-- Claim C4 counterexample: for a dto whose check-out precedes its check-in
by one hour (duration −1 h against a 10-per-hour lot), the stored
`totalCost` is 0, not the duration-times-price product −10 the claim
requires for every dto: the code clamps with `Math.max(0, …)`. -/
theorem claimC4_counterexample :
    (createReservation exStore exCreateDtoNeg 0 "rNew").2.reservations.map
        (fun r => r.totalCost) = [0] ∧
    ((exCreateDtoNeg.checkOutDateTime : Rat) - (exCreateDtoNeg.checkInDateTime : Rat))
        / (1000 * 60 * 60) * exLot.pricePerHour = -10 ∧
    ((0 : Rat) ≠ -10) := by
  refine ⟨?_, ?_, by norm_num⟩
  · norm_num [createReservation, exStore, exCreateDtoNeg, exCreateDto, exLot,
      MockApiObservableService.updateSpaceStatus, List.find?]
  · norm_num [exCreateDtoNeg, exCreateDto, exLot]

/-- Claim C4 (amended): for every create dto whose `lotId` matches an
existing lot, the new reservation has status PENDING and
`totalCost = max 0 (duration-in-hours × pricePerHour)` — equal to the plain
product whenever that product is non-negative (e.g. 2 h × 10 = 20) — and it
is appended to the store's collection. -/
theorem claimC4_amended :
    ∀ (s : MockApiObservableService.StoreState) (dto : CreateReservationDto)
      (now : Int) (newId : String) (lot : ParkingLot),
      s.parkingLots.find? (fun l => l.id == dto.lotId) = some lot →
      ∃ r, (createReservation s dto now newId).1 = .ok r ∧
        r.status = "PENDING" ∧
        r.totalCost = max 0
          (((dto.checkOutDateTime : Rat) - (dto.checkInDateTime : Rat))
            / (1000 * 60 * 60) * lot.pricePerHour) ∧
        (0 ≤ ((dto.checkOutDateTime : Rat) - (dto.checkInDateTime : Rat))
            / (1000 * 60 * 60) * lot.pricePerHour →
          r.totalCost = ((dto.checkOutDateTime : Rat) - (dto.checkInDateTime : Rat))
            / (1000 * 60 * 60) * lot.pricePerHour) ∧
        (createReservation s dto now newId).2.reservations
          = s.reservations ++ [r] := by
  intro s dto now newId lot hfind
  simp only [createReservation, hfind, MockApiObservableService.updateSpaceStatus]
  exact ⟨_, rfl, rfl, rfl, fun h => max_eq_right h, rfl⟩

/-- Claim C4 witness: the amended theorem at the spec's own example — a
2-hour interval against a 10-per-hour lot — plus the concrete check that
the stored reservation then carries status PENDING and `totalCost` 20. -/
theorem claimC4_witness :
    exStore.parkingLots.find? (fun l => l.id == exCreateDto.lotId) = some exLot ∧
    (∃ r, (createReservation exStore exCreateDto 0 "rNew").1 = .ok r ∧
      r.status = "PENDING" ∧
      r.totalCost = max 0
        (((exCreateDto.checkOutDateTime : Rat) - (exCreateDto.checkInDateTime : Rat))
          / (1000 * 60 * 60) * exLot.pricePerHour) ∧
      (0 ≤ ((exCreateDto.checkOutDateTime : Rat) - (exCreateDto.checkInDateTime : Rat))
          / (1000 * 60 * 60) * exLot.pricePerHour →
        r.totalCost = ((exCreateDto.checkOutDateTime : Rat) - (exCreateDto.checkInDateTime : Rat))
          / (1000 * 60 * 60) * exLot.pricePerHour) ∧
      (createReservation exStore exCreateDto 0 "rNew").2.reservations
        = exStore.reservations ++ [r]) ∧
    (createReservation exStore exCreateDto 0 "rNew").2.reservations.map
      (fun r => (r.status, r.totalCost)) = [("PENDING", (20 : Rat))] :=
  ⟨by decide, claimC4_amended exStore exCreateDto 0 "rNew" exLot (by decide),
    by norm_num [createReservation, exStore, exCreateDto, exLot,
      MockApiObservableService.updateSpaceStatus, List.find?]⟩

/-! ## Claim C6 -/

/-- Claim C6 (confirmed): `deleteReservation` fails exactly when no
reservation carries the requested id; on success precisely the rows with
that id are removed (the remainder kept in order, as a sublist) and every
space with the referenced space id is set back to AVAILABLE (other spaces
are kept). -/
theorem claimC6_delete_spec :
    ∀ (s : MockApiObservableService.StoreState) (id : String) (now : Int),
      ((deleteReservation s id now).1.isOk = false ↔
        ∀ r ∈ s.reservations, r.id ≠ id) ∧
      (∀ res, s.reservations.find? (fun r => r.id == id) = some res →
        (deleteReservation s id now).2.reservations
            = s.reservations.filter (fun r => !(r.id == id)) ∧
        (deleteReservation s id now).2.reservations.Sublist s.reservations ∧
        (∀ r, r ∈ (deleteReservation s id now).2.reservations
            ↔ r ∈ s.reservations ∧ r.id ≠ id) ∧
        (∀ sp ∈ (deleteReservation s id now).2.parkingSpaces,
          sp.id = res.spaceId → sp.status = "AVAILABLE") ∧
        (∀ sp ∈ s.parkingSpaces, sp.id ≠ res.spaceId →
          sp ∈ (deleteReservation s id now).2.parkingSpaces)) := by
  intro s id now
  constructor
  · rcases hfind : s.reservations.find? (fun r => r.id == id) with _ | res
    · simp only [deleteReservation, hfind]
      constructor
      · intro _ r hr
        simpa using List.find?_eq_none.mp hfind r hr
      · intro _
        rfl
    · simp only [deleteReservation, hfind]
      constructor
      · intro h
        simp [Except.isOk, Except.toBool] at h
      · intro hall
        exact absurd (by simpa using List.find?_some hfind)
          (hall res (List.mem_of_find?_eq_some hfind))
  · intro res hfind
    have hres : (deleteReservation s id now).2.reservations
        = s.reservations.filter (fun r => !(r.id == id)) := by
      simp only [deleteReservation, hfind, MockApiObservableService.updateSpaceStatus]
    have hspaces : (deleteReservation s id now).2.parkingSpaces
        = s.parkingSpaces.map (fun sp =>
            if sp.id == res.spaceId
            then { sp with status := "AVAILABLE", updatedAt := now } else sp) := by
      simp only [deleteReservation, hfind, MockApiObservableService.updateSpaceStatus]
    refine ⟨hres, ?_, ?_, ?_, ?_⟩
    · rw [hres]
      exact List.filter_sublist _
    · intro r
      rw [hres]
      simp [List.mem_filter]
    · intro sp hsp heq
      rw [hspaces] at hsp
      rcases List.mem_map.mp hsp with ⟨sp0, hsp0, rfl⟩
      by_cases h : (sp0.id == res.spaceId) = true
      · rw [if_pos h]
      · rw [if_neg h] at heq
        exact absurd heq (by simpa using h)
    · intro sp hsp hne
      rw [hspaces]
      refine List.mem_map.mpr ⟨sp, hsp, ?_⟩
      rw [if_neg (fun hc => hne (beq_iff_eq.mp hc))]

/-- Claim C6 witness: the delete specification applied at a concrete store
holding one reservation. -/
theorem claimC6_witness :
    ((deleteReservation exStoreWithRes "zz" 0).1.isOk = false ↔
      ∀ r ∈ exStoreWithRes.reservations, r.id ≠ "zz") ∧
    exStoreWithRes.reservations.find? (fun r => r.id == "r0") = some exStoredRes ∧
    (deleteReservation exStoreWithRes "r0" 0).2.reservations
        = exStoreWithRes.reservations.filter (fun r => !(r.id == "r0")) ∧
    (∀ sp ∈ (deleteReservation exStoreWithRes "r0" 0).2.parkingSpaces,
      sp.id = exStoredRes.spaceId → sp.status = "AVAILABLE") := by
  have h1 := (claimC6_delete_spec exStoreWithRes "zz" 0).1
  have h2 := (claimC6_delete_spec exStoreWithRes "r0" 0).2 exStoredRes (by decide)
  exact ⟨h1, by decide, h2.1, h2.2.2.2.1⟩

/-! ## Claim C5 -/

/-- Claim C5 counterexample: an update dto that re-sends the stored
check-in date with the identical value (so no date *changed*) still causes
`totalCost` to be recomputed — the stored 999 becomes 10 (1 h × 10) — so
recomputation is triggered by the *presence* of a date field, not by a
change. -/
theorem claimC5_counterexample :
    (updateReservation exStoreWithRes "r0" exUpdateDtoSameDate 5).2.reservations.map
        (fun r => (r.checkInDateTime, r.checkOutDateTime, r.totalCost))
      = [(3600000, 7200000, (10 : Rat))] ∧
    exStoredRes.checkInDateTime = 3600000 ∧
    exStoredRes.checkOutDateTime = 7200000 ∧
    exUpdateDtoSameDate.checkInDateTime = some exStoredRes.checkInDateTime ∧
    exUpdateDtoSameDate.checkOutDateTime = none ∧
    exStoredRes.totalCost = 999 ∧
    ((10 : Rat) ≠ 999) := by
  refine ⟨?_, rfl, rfl, rfl, rfl, rfl, by norm_num⟩
  norm_num [updateReservation, exStoreWithRes, exStore, exStoredRes,
    exUpdateDtoSameDate, exLot, MockApiObservableService.updateSpaceStatus,
    MockApiObservableService.replaceFirstById, List.find?]

/-- Claim C5 (amended): for an existing id, `updateReservation` performs a
shallow merge — every field absent from the dto keeps its stored value
except `updatedAt` (set to now) and `totalCost`; `totalCost` is recomputed
exactly when either date field is *present in the dto* (whether or not its
value differs) and the effective lot resolves, and is kept otherwise; every
reservation at a position whose id differs is left exactly unchanged, as
are the user and lot collections. -/
theorem claimC5_amended :
    ∀ (s : MockApiObservableService.StoreState) (id : String)
      (dto : UpdateReservationDto) (now : Int) (existing : Reservation),
      s.reservations.find? (fun r => r.id == id) = some existing →
      ∃ updated, (updateReservation s id dto now).1 = .ok updated ∧
        updated.id = existing.id ∧
        updated.createdAt = existing.createdAt ∧
        updated.updatedAt = now ∧
        (dto.userId = none → updated.userId = existing.userId) ∧
        (dto.lotId = none → updated.lotId = existing.lotId) ∧
        (dto.spaceId = none → updated.spaceId = existing.spaceId) ∧
        (dto.status = none → updated.status = existing.status) ∧
        (dto.specialRequirements = none →
          updated.specialRequirements = existing.specialRequirements) ∧
        (dto.checkInDateTime = none →
          updated.checkInDateTime = existing.checkInDateTime) ∧
        (dto.checkOutDateTime = none →
          updated.checkOutDateTime = existing.checkOutDateTime) ∧
        (dto.checkInDateTime = none → dto.checkOutDateTime = none →
          updated.totalCost = existing.totalCost) ∧
        (∀ lot, (dto.checkInDateTime.isSome ∨ dto.checkOutDateTime.isSome) →
          s.parkingLots.find? (fun l => l.id == dto.lotId.getD existing.lotId)
              = some lot →
          updated.totalCost = max 0
            ((((dto.checkOutDateTime.getD existing.checkOutDateTime) : Rat)
                - ((dto.checkInDateTime.getD existing.checkInDateTime) : Rat))
              / (1000 * 60 * 60) * lot.pricePerHour)) ∧
        ((dto.checkInDateTime.isSome ∨ dto.checkOutDateTime.isSome) →
          s.parkingLots.find? (fun l => l.id == dto.lotId.getD existing.lotId)
              = none →
          updated.totalCost = existing.totalCost) ∧
        (updateReservation s id dto now).2.reservations.length
            = s.reservations.length ∧
        (∀ (j : Nat) (r2 : Reservation), s.reservations[j]? = some r2 →
          r2.id ≠ id →
          (updateReservation s id dto now).2.reservations[j]? = some r2) ∧
        (updateReservation s id dto now).2.users = s.users ∧
        (updateReservation s id dto now).2.parkingLots = s.parkingLots := by
  intro s id dto now existing hfind
  have hres : (updateReservation s id dto now).2.reservations
      = MockApiObservableService.replaceFirstById s.reservations id
          ((updateReservation s id dto now).1.toOption.getD existing) := by
    simp only [updateReservation, hfind, MockApiObservableService.updateSpaceStatus]
    by_cases hsp : (dto.spaceId.isSome && !(dto.spaceId.getD "" == existing.spaceId)) = true
    · rw [if_pos hsp]
      rfl
    · rw [if_neg hsp]
      rfl
  have husers : (updateReservation s id dto now).2.users = s.users := by
    simp only [updateReservation, hfind, MockApiObservableService.updateSpaceStatus]
    by_cases hsp : (dto.spaceId.isSome && !(dto.spaceId.getD "" == existing.spaceId)) = true
    · rw [if_pos hsp]
    · rw [if_neg hsp]
  have hlots : (updateReservation s id dto now).2.parkingLots = s.parkingLots := by
    simp only [updateReservation, hfind, MockApiObservableService.updateSpaceStatus]
    by_cases hsp : (dto.spaceId.isSome && !(dto.spaceId.getD "" == existing.spaceId)) = true
    · rw [if_pos hsp]
    · rw [if_neg hsp]
  refine ⟨(⟨existing.id,
      dto.userId.getD existing.userId,
      dto.lotId.getD existing.lotId,
      dto.spaceId.getD existing.spaceId,
      dto.checkInDateTime.getD existing.checkInDateTime,
      dto.checkOutDateTime.getD existing.checkOutDateTime,
      dto.status.getD existing.status,
      (match dto.specialRequirements with
        | some v => some v
        | none => existing.specialRequirements),
      (if (dto.checkInDateTime.isSome || dto.checkOutDateTime.isSome) = true then
          match s.parkingLots.find? (fun l => l.id == dto.lotId.getD existing.lotId) with
          | some lot =>
            max 0 ((((dto.checkOutDateTime.getD existing.checkOutDateTime) : Rat)
                - ((dto.checkInDateTime.getD existing.checkInDateTime) : Rat))
              / (1000 * 60 * 60) * lot.pricePerHour)
          | none => existing.totalCost
        else existing.totalCost),
      existing.createdAt,
      now⟩ : Reservation),
    ?_, rfl, rfl, rfl, ?_, ?_, ?_, ?_, ?_, ?_, ?_, ?_, ?_, ?_, ?_, ?_,
    husers, hlots⟩
  · simp only [updateReservation, hfind]
  · intro h
    simp [h]
  · intro h
    simp [h]
  · intro h
    simp [h]
  · intro h
    simp [h]
  · intro h
    simp [h]
  · intro h
    simp [h]
  · intro h
    simp [h]
  · intro h1 h2
    simp [h1, h2]
  · intro lot hsome hlot
    have hcond : (dto.checkInDateTime.isSome || dto.checkOutDateTime.isSome) = true := by
      rcases hsome with h | h <;> simp [h]
    simp [hcond, hlot]
  · intro hsome hlot
    have hcond : (dto.checkInDateTime.isSome || dto.checkOutDateTime.isSome) = true := by
      rcases hsome with h | h <;> simp [h]
    simp [hcond, hlot]
  · rw [hres]
    exact replaceFirstById_length id _ s.reservations
  · intro j r2 hj hne
    rw [hres]
    exact replaceFirstById_getElem_of_ne id _ s.reservations j r2 hj hne

/-- Claim C5 witness: the shallow-merge theorem applied at two concrete
stores — with an all-absent dto every field (including `totalCost`) is kept
and only `updatedAt` moves; with a date-carrying dto against a lot-less
store, `totalCost` is also kept. -/
theorem claimC5_witness :
    exStoreWithRes.reservations.find? (fun r => r.id == "r0") = some exStoredRes ∧
    (∃ updated,
      (updateReservation exStoreWithRes "r0" exUpdateDtoEmpty 5).1 = .ok updated ∧
      updated.userId = exStoredRes.userId ∧
      updated.totalCost = exStoredRes.totalCost ∧
      updated.updatedAt = 5 ∧
      (updateReservation exStoreWithRes "r0" exUpdateDtoEmpty 5).2.reservations.length
        = exStoreWithRes.reservations.length) ∧
    (∃ updated,
      (updateReservation { exStoreWithRes with parkingLots := [] } "r0"
          exUpdateDtoSameDate 5).1 = .ok updated ∧
      updated.totalCost = exStoredRes.totalCost) := by
  have h := claimC5_amended exStoreWithRes "r0" exUpdateDtoEmpty 5 exStoredRes (by decide)
  rcases h with ⟨u, h1, h2, h3, h4, h5, h6, h7, h8, h9, h10, h11, h12, h13,
    h14, h15, h16, h17, h18⟩
  have g := claimC5_amended { exStoreWithRes with parkingLots := [] } "r0"
    exUpdateDtoSameDate 5 exStoredRes (by decide)
  rcases g with ⟨v, g1, g2, g3, g4, g5, g6, g7, g8, g9, g10, g11, g12, g13,
    g14, g15, g16, g17, g18⟩
  exact ⟨by decide, ⟨u, h1, h5 rfl, h12 rfl rfl, h4, h15⟩,
    ⟨v, g1, g14 (Or.inl (by decide)) rfl⟩⟩

/-- Claim C2 witness: the amended page-reset theorem at concrete inputs. -/
theorem claimC2_witness :
    (recompute pipeState0 [exResA] "" none none none [] []).pageIndex = 0 ∧
    (handleSortChange pipeState0 "" none none none ⟨"id", "asc"⟩).pageIndex = 0 ∧
    (onPageChange pipeState0 ⟨4, 7⟩).pageIndex = 4 :=
  ⟨claimC2_amended.1 pipeState0 [exResA] "" none none none [] [],
    claimC2_amended.2.1 pipeState0 "" none none none ⟨"id", "asc"⟩,
    claimC2_amended.2.2 pipeState0 ⟨4, 7⟩⟩

/-- Claim C3 witness: the amended comparator characterization at the
concrete case-differing rows. -/
theorem claimC3_witness :
    (sortDataCmp [] [] ⟨"id", "asc"⟩ exResLow exResUp ≤ 0
      ↔ strLt exResLow.id exResUp.id = true) ∧
    sortDataCmp [] [] ⟨"id", "asc"⟩ exResLow exResUp ≠ 0 ∧
    (sortDataCmp [] [] ⟨"id", "desc"⟩ exResLow exResUp
      = -(sortDataCmp [] [] ⟨"id", "asc"⟩ exResLow exResUp)) :=
  ⟨(claimC3_amended [] [] exResLow exResUp).1,
    (claimC3_amended [] [] exResLow exResUp).2.2.1,
    (claimC3_amended [] [] exResLow exResUp).2.1⟩
